import Mathlib

/-!
# Verification of `tiny-ts-result`

A shallow embedding of the `tiny-ts-result` TypeScript library
(`src/error.ts`, `src/result.ts`, `src/wrapping.ts`) in Lean 4,
together with theorems settling the specification claims.

JavaScript runtime values are modelled by the inductive type `JSValue`.
Identity-preservation claims ("returned unchanged, not copied") are
modelled as the function returning its argument itself. Raised
exceptions are modelled with `Except`: `Except.error e` is a raise of
the value `e`. A zero-argument function that either returns or throws
is modelled by its single execution outcome `JSOutcome`.
-/

namespace TinyTsResult

/-- A JavaScript runtime value, as far as the library inspects values:
primitives, symbols, promises (opaque objects without fields), arrays,
plain objects as association lists of fields, and `Error`-class
instances (`jerror`), which carry their prototype chain of class ids,
their `message` string and their `cause` value (`undefined` when no
cause was supplied). -/
inductive JSValue : Type where
  | undefined : JSValue
  | null : JSValue
  | bool (b : Bool) : JSValue
  | num (n : Int) : JSValue
  | str (s : String) : JSValue
  | symbol (id : Nat) : JSValue
  | promise (id : Nat) : JSValue
  | arr (elems : List JSValue) : JSValue
  | obj (fields : List (String × JSValue)) : JSValue
  | jerror (chain : List Nat) (message : String) (cause : JSValue) : JSValue

namespace JSValue

/-- JavaScript `typeof v === "object"` (true for `null`, arrays,
plain objects, `Error` instances and promises). -/
def typeofIsObject : JSValue → Bool
  | .null => true
  | .arr _ => true
  | .obj _ => true
  | .jerror _ _ _ => true
  | .promise _ => true
  | _ => false

/-- JavaScript `Array.isArray(v)`. -/
def isJSArray : JSValue → Bool
  | .arr _ => true
  | _ => false

/-- Is this value a JavaScript string? (`typeof v === "string"`). -/
def isJSString : JSValue → Bool
  | .str _ => true
  | _ => false

/-- JavaScript `v === null`. -/
def isJSNull : JSValue → Bool
  | .null => true
  | _ => false

/-- JavaScript `name in v` (own property lookup; `Error` instances
expose `message` and `cause`). -/
def hasField (v : JSValue) (name : String) : Bool :=
  match v with
  | .obj fields => (fields.lookup name).isSome
  | .jerror _ _ _ => name == "message" || name == "cause"
  | _ => false

/-- JavaScript property read `v[name]`, `undefined` when absent. -/
def getField (v : JSValue) (name : String) : JSValue :=
  match v with
  | .obj fields => (fields.lookup name).getD .undefined
  | .jerror _ message cause =>
      if name == "message" then .str message
      else if name == "cause" then cause
      else .undefined
  | _ => .undefined

end JSValue

/-- A constructor usable in `instanceof` checks and (for the
default-argument shape) invocable as `new K(message, { cause })`:
identified by the class id of the instances it produces, plus the ids
of the ancestor classes in the prototype chain. -/
structure ErrConstructor where
  classId : Nat
  parents : List Nat
deriving DecidableEq, Repr

/-- The prototype chain of instances produced by a constructor. -/
def ctorChain (constructor : ErrConstructor) : List Nat :=
  constructor.classId :: constructor.parents

/-- JavaScript `v instanceof K`: the value is an object whose
prototype chain contains the constructor's class. -/
def instanceOf (v : JSValue) (constructor : ErrConstructor) : Bool :=
  match v with
  | .jerror chain _ _ => chain.contains constructor.classId
  | _ => false

/-- The base `Error` constructor. All real `Error` subclasses keep `0`
(the base class id) in their chain. -/
def errorCtor : ErrConstructor := ⟨0, []⟩

/-- JavaScript `new K(message, { cause })` for an `Error`-family
constructor with the default argument shape. -/
def newError (constructor : ErrConstructor) (message : String)
    (cause : JSValue) : JSValue :=
  .jerror (ctorChain constructor) message cause

/-- Model of `makeErr` from `src/error.ts`: builds the plain object
`{ message, cause }` (with `cause` the field value `undefined` when
the optional argument is omitted). -/
def makeErr (message : String) (cause : JSValue := .undefined) : JSValue :=
  .obj [("message", .str message), ("cause", cause)]

/-- Model of `makeCause` from `src/error.ts`: `{ error }`. -/
def makeCause (error : JSValue) : JSValue :=
  .obj [("error", error)]

/-- Model of `unknownHasMessageField` from `src/error.ts`: a non-null,
non-array object with a string `message` property. -/
def unknownHasMessageField (value : JSValue) : Bool :=
  value.typeofIsObject &&
  !value.isJSNull &&
  !value.isJSArray &&
  value.hasField "message" &&
  (value.getField "message").isJSString

/-- Model of `exceptionToErr` from `src/error.ts`: an `Error` instance or a
value with a string `message` field is returned unchanged; anything
else becomes `makeErr "Unknown error" { error }`. -/
def exceptionToErr (error : JSValue) : JSValue :=
  if instanceOf error errorCtor || unknownHasMessageField error then error
  else makeErr "Unknown error" (makeCause error)

/-- The `message` property of an `Err`-shaped value, read as a string.
(The library only reads `err.message` on values that are `Err`s, i.e.
carry a string `message`; theorems that use this carry that shape as a
hypothesis, so the fallback for non-strings is never reached there.) -/
def errMessage (err : JSValue) : String :=
  match err.getField "message" with
  | .str s => s
  | _ => ""

/-- Model of `errToException` from `src/error.ts`: an `err` already an instance
of the constructor is returned unchanged; otherwise a new exception of
the constructor's kind is built from `err.message` with cause
`{ error: err }`. -/
def errToException (err : JSValue) (constructor : ErrConstructor) : JSValue :=
  if instanceOf err constructor then err
  else newError constructor (errMessage err) (makeCause err)

/-- A `Result` value from `src/result.ts`: the object
`{ isOk, ok, err }`, where the populated payload is governed by the
`isOk` discriminator and the other payload is `undefined`. -/
structure JSResult where
  isOk : Bool
  ok : JSValue
  err : JSValue

/-- Model of `makeResultOk` from `src/result.ts`. -/
def makeResultOk (ok : JSValue) : JSResult :=
  { isOk := true, ok := ok, err := .undefined }

/-- Model of `makeResultErr` from `src/result.ts`. -/
def makeResultErr (err : JSValue) : JSResult :=
  { isOk := false, ok := .undefined, err := err }

/-- Model of `isResultOk` from `src/result.ts`: reads the discriminator. -/
def isResultOk (result : JSResult) : Bool :=
  result.isOk

/-- Model of `isResultErr` from `src/result.ts`: negated discriminator. -/
def isResultErr (result : JSResult) : Bool :=
  !result.isOk

/-- Model of `groupResults` from `src/result.ts`: one pass over the input,
pushing each `ok` payload onto the first list and each `err` payload
onto the second, exactly as the source's `for` loop does. -/
def groupResults (results : List JSResult) : List JSValue × List JSValue :=
  results.foldl
    (fun acc result =>
      if result.isOk then (acc.1 ++ [result.ok], acc.2)
      else (acc.1, acc.2 ++ [result.err]))
    ([], [])

/-- The single execution of a zero-argument function
(`NullarySomething` in `src/wrapping.ts`): it either returns a value
or throws one. -/
inductive JSOutcome : Type where
  | ret (v : JSValue) : JSOutcome
  | thrown (e : JSValue) : JSOutcome

/-- Model of `wrapUnknown` from `src/wrapping.ts`: a return becomes the Ok
variant, every thrown value is caught and converted by
`exceptionToErr` into the Err variant. -/
def wrapUnknown (fn : JSOutcome) : JSResult :=
  match fn with
  | .ret v => makeResultOk v
  | .thrown error => makeResultErr (exceptionToErr error)

/-- Model of `wrapInstanceOf` from `src/wrapping.ts`: a return becomes the Ok
variant; a thrown value that is an instance of the constructor is
stored directly in the Err variant; any other thrown value is
re-thrown (`Except.error`). -/
def wrapInstanceOf (fn : JSOutcome) (constructor : ErrConstructor) :
    Except JSValue JSResult :=
  match fn with
  | .ret v => .ok (makeResultOk v)
  | .thrown error =>
      if instanceOf error constructor then .ok (makeResultErr error)
      else .error error

/-- Model of `wrap` from `src/wrapping.ts`: delegates to `wrapInstanceOf` when
`onlyInstanceOf` is supplied and to `wrapUnknown` otherwise (the
latter never re-throws, hence always `Except.ok`). -/
def wrap (fn : JSOutcome) (onlyInstanceOf : Option ErrConstructor) :
    Except JSValue JSResult :=
  match onlyInstanceOf with
  | some constructor => wrapInstanceOf fn constructor
  | none => .ok (wrapUnknown fn)

/-- Model of `unwrap` from `src/wrapping.ts`: returns `ok` when the
discriminator is set, otherwise throws
`errToException err (errorConstructor || Error)`. -/
def unwrap (result : JSResult) (errorConstructor : Option ErrConstructor) :
    Except JSValue JSValue :=
  if result.isOk then .ok result.ok
  else .error (errToException result.err (errorConstructor.getD errorCtor))

/-- Does this value have the `Err` shape, i.e. carry a string
`message` (every `Error` instance does)? This is the spec's notion of
an "error-like value". -/
def errShaped (v : JSValue) : Bool :=
  (v.getField "message").isJSString

/-- One step of cause-chain inspection: `v.cause.error`, the slot in
which both `exceptionToErr` and `errToException` store the previous
value. -/
def causeError (v : JSValue) : JSValue :=
  (v.getField "cause").getField "error"

/-- Membership in the `Something` type constraint of `src/result.ts`:
anything other than `null` or `undefined`. -/
def isSomething : JSValue → Bool
  | .undefined => false
  | .null => false
  | _ => true

/-- Is this value exactly `undefined`? (Models the absent payload of
the non-selected `Result` variant.) -/
def isUndefined : JSValue → Bool
  | .undefined => true
  | _ => false

/-- The spec's `Result` invariant: exactly one of the two payloads is
populated, governed by the discriminator — the selected payload is a
real value (a `Something`) and the other payload is `undefined`. -/
def wellFormed (r : JSResult) : Bool :=
  if r.isOk then isSomething r.ok && isUndefined r.err
  else isUndefined r.ok && isSomething r.err

/-- The typing constraint on wrapped functions
(`NullarySomething TOk` with `TOk extends Something`): a returned
value is a `Something`; a thrown value is unconstrained. -/
def outcomeSomething : JSOutcome → Bool
  | .ret v => isSomething v
  | .thrown _ => true

/-! ## Helper lemmas -/

/-- The guard of `exceptionToErr` holds exactly on values carrying a
string `message` field (`Error` instances always do). -/
theorem errLike_eq_errShaped (x : JSValue) :
    (instanceOf x errorCtor || unknownHasMessageField x) = errShaped x := by
  cases x with
  | jerror chain m c =>
      simp [instanceOf, unknownHasMessageField, errShaped,
        JSValue.typeofIsObject, JSValue.isJSNull, JSValue.isJSArray,
        JSValue.hasField, JSValue.getField, JSValue.isJSString]
  | obj fields =>
      simp only [instanceOf, unknownHasMessageField, errShaped,
        JSValue.typeofIsObject, JSValue.isJSNull, JSValue.isJSArray,
        JSValue.hasField, JSValue.getField, JSValue.isJSString,
        Bool.false_or, Bool.true_and, Bool.not_false]
      cases h : fields.lookup "message" with
      | none => simp [h, JSValue.isJSString]
      | some v => simp [h, JSValue.isJSString]
  | undefined => rfl
  | null => rfl
  | bool b => rfl
  | num n => rfl
  | str s => rfl
  | symbol id => rfl
  | promise id => rfl
  | arr elems => rfl

/-- Reformulation of `exceptionToErr` through `errShaped`. -/
theorem exceptionToErr_eq_ite (x : JSValue) :
    exceptionToErr x =
      if errShaped x then x else makeErr "Unknown error" (makeCause x) := by
  simp only [exceptionToErr, errLike_eq_errShaped]

/-- Values carrying a string `message` pass through unchanged. -/
theorem exceptionToErr_of_errShaped {x : JSValue} (h : errShaped x = true) :
    exceptionToErr x = x := by
  simp [exceptionToErr_eq_ite, h]

/-- Values without a string `message` get the synthetic wrapper. -/
theorem exceptionToErr_of_not_errShaped {x : JSValue} (h : errShaped x = false) :
    exceptionToErr x = makeErr "Unknown error" (makeCause x) := by
  simp [exceptionToErr_eq_ite, h]

/-- Every `instanceof` hit is an `Error` instance, hence `Err`-shaped. -/
theorem errShaped_of_instanceOf {e : JSValue} {K : ErrConstructor}
    (h : instanceOf e K = true) : errShaped e = true := by
  cases e <;>
    simp_all [instanceOf, errShaped, JSValue.getField, JSValue.isJSString]

/-- The plain objects built by `makeErr` are `Err`-shaped. -/
theorem errShaped_makeErr (m : String) (c : JSValue) :
    errShaped (makeErr m c) = true := by
  simp [errShaped, makeErr, JSValue.getField, List.lookup, JSValue.isJSString]

/-- The output of `exceptionToErr` always carries a string `message`. -/
theorem errShaped_exceptionToErr (v : JSValue) :
    errShaped (exceptionToErr v) = true := by
  cases h : errShaped v
  · simp [exceptionToErr_eq_ite, h, errShaped_makeErr]
  · simp [exceptionToErr_eq_ite, h]

/-! ## Claim theorems -/

/-- C1: for every caught value `x`, `exceptionToErr x` returns `x`
itself when `x` is error-like (carries a string `message` field,
including `Error` instances and previously built `Err`s), and
otherwise returns a new `Err` with message `"Unknown error"` and cause
`{ error := x }` with `x` retained verbatim. -/
theorem exceptionToErr_passthrough_or_unknown (x : JSValue) :
    (errShaped x = true → exceptionToErr x = x) ∧
    (errShaped x = false →
      exceptionToErr x = makeErr "Unknown error" (makeCause x)) :=
  ⟨fun h => exceptionToErr_of_errShaped h,
   fun h => exceptionToErr_of_not_errShaped h⟩

theorem exceptionToErr_passthrough_or_unknown_witness :
    (errShaped (JSValue.jerror [0] "boom" .undefined) = true ∧
      exceptionToErr (JSValue.jerror [0] "boom" .undefined) =
        JSValue.jerror [0] "boom" .undefined) ∧
    (errShaped (JSValue.str "junk") = false ∧
      exceptionToErr (JSValue.str "junk") =
        makeErr "Unknown error" (makeCause (JSValue.str "junk"))) :=
  ⟨⟨rfl, (exceptionToErr_passthrough_or_unknown _).1 rfl⟩,
   ⟨rfl, (exceptionToErr_passthrough_or_unknown _).2 rfl⟩⟩

/-- C7: `exceptionToErr` is total — it is a plain function on all
modelled runtime values (so the conversion itself never throws: its
result type is a value, not an `Except`), and its result is always an
`Err`, i.e. carries a string `message` field. -/
theorem exceptionToErr_total_err (v : JSValue) :
    errShaped (exceptionToErr v) = true :=
  errShaped_exceptionToErr v

/-- C8: `exceptionToErr` is idempotent on input that already has a
`message` field. -/
theorem exceptionToErr_idem (x : JSValue) (_h : x.hasField "message" = true) :
    exceptionToErr (exceptionToErr x) = exceptionToErr x :=
  exceptionToErr_of_errShaped (errShaped_exceptionToErr x)

theorem exceptionToErr_idem_witness :
    (JSValue.obj [("message", JSValue.str "hi")]).hasField "message" = true ∧
    exceptionToErr (exceptionToErr (JSValue.obj [("message", JSValue.str "hi")])) =
      exceptionToErr (JSValue.obj [("message", JSValue.str "hi")]) :=
  ⟨rfl, exceptionToErr_idem _ rfl⟩

/-- C2: with no filter constructor, `wrap` turns every thrown string
(of any length) into the Err variant with message `"Unknown error"`
and cause `{ error := s }`; in particular for `"junk"`; and every
non-`Err`-shaped thrown value is treated the same way. -/
theorem wrap_thrown_string_uniform :
    (∀ s : String,
      wrap (.thrown (.str s)) none =
        .ok (makeResultErr (makeErr "Unknown error" (makeCause (.str s))))) ∧
    wrap (.thrown (.str "junk")) none =
      .ok (makeResultErr (makeErr "Unknown error" (makeCause (.str "junk")))) ∧
    (∀ e : JSValue, errShaped e = false →
      wrap (.thrown e) none =
        .ok (makeResultErr (makeErr "Unknown error" (makeCause e)))) := by
  have h3 : ∀ e : JSValue, errShaped e = false →
      wrap (.thrown e) none =
        .ok (makeResultErr (makeErr "Unknown error" (makeCause e))) := by
    intro e h
    simp [wrap, wrapUnknown, exceptionToErr_of_not_errShaped h]
  exact ⟨fun s => h3 (.str s) rfl, h3 (.str "junk") rfl, h3⟩

theorem wrap_thrown_string_uniform_witness :
    errShaped (JSValue.bool true) = false ∧
    wrap (.thrown (.bool true)) none =
      .ok (makeResultErr (makeErr "Unknown error" (makeCause (.bool true)))) :=
  ⟨rfl, wrap_thrown_string_uniform.2.2 (.bool true) rfl⟩

/-- C3: `wrap fn (some K)` yields Ok on a returned value, converts a
thrown instance of `K` via `exceptionToErr` into the Err variant, and
re-raises any other thrown value unchanged. -/
theorem wrap_filtered (v e : JSValue) (K : ErrConstructor) :
    wrap (.ret v) (some K) = .ok (makeResultOk v) ∧
    (instanceOf e K = true →
      wrap (.thrown e) (some K) = .ok (makeResultErr (exceptionToErr e))) ∧
    (instanceOf e K = false → wrap (.thrown e) (some K) = .error e) := by
  refine ⟨rfl, fun h => ?_, fun h => ?_⟩
  · have he : exceptionToErr e = e :=
      exceptionToErr_of_errShaped (errShaped_of_instanceOf h)
    simp [wrap, wrapInstanceOf, h, he]
  · simp [wrap, wrapInstanceOf, h]

theorem wrap_filtered_witness :
    (instanceOf (JSValue.jerror [1, 0] "x" .undefined) ⟨1, []⟩ = true ∧
      wrap (.thrown (.jerror [1, 0] "x" .undefined)) (some ⟨1, []⟩) =
        .ok (makeResultErr (exceptionToErr (.jerror [1, 0] "x" .undefined)))) ∧
    (instanceOf (JSValue.jerror [2, 0] "x" .undefined) ⟨1, []⟩ = false ∧
      wrap (.thrown (.jerror [2, 0] "x" .undefined)) (some ⟨1, []⟩) =
        .error (.jerror [2, 0] "x" .undefined)) :=
  ⟨⟨rfl, (wrap_filtered (.str "foo") _ _).2.1 rfl⟩,
   ⟨rfl, (wrap_filtered (.str "foo") _ _).2.2 rfl⟩⟩

/-- C10: when the filtered wrappers catch a thrown instance of the
filter constructor, the `err` field of the returned result is the
caught value itself — stored directly, with no `exceptionToErr` call
and no new `Err` built. -/
theorem wrapInstanceOf_stores_caught (e : JSValue) (K : ErrConstructor)
    (h : instanceOf e K = true) :
    wrapInstanceOf (.thrown e) K = .ok (makeResultErr e) ∧
    wrap (.thrown e) (some K) = .ok (makeResultErr e) := by
  constructor <;> simp [wrap, wrapInstanceOf, h]

theorem wrapInstanceOf_stores_caught_witness :
    instanceOf (JSValue.jerror [3, 0] "boom" .undefined) ⟨3, []⟩ = true ∧
    wrapInstanceOf (.thrown (.jerror [3, 0] "boom" .undefined)) ⟨3, []⟩ =
      .ok (makeResultErr (.jerror [3, 0] "boom" .undefined)) :=
  ⟨rfl,
   (wrapInstanceOf_stores_caught (.jerror [3, 0] "boom" .undefined) ⟨3, []⟩ rfl).1⟩

/-- C4: `unwrap` returns the success value on the Ok variant, and on
the Err variant raises the exception produced by `errToException`
with the given constructor (the base `Error` constructor when
omitted); it raises exactly on the Err variant, and unwrapping
`makeResultErr (makeErr "failed")` raises an exception whose message
is `"failed"`. -/
theorem unwrap_spec (r : JSResult) (ctor : Option ErrConstructor) :
    (r.isOk = true → unwrap r ctor = .ok r.ok) ∧
    (r.isOk = false →
      unwrap r ctor = .error (errToException r.err (ctor.getD errorCtor))) ∧
    ((∃ e, unwrap r ctor = .error e) ↔ r.isOk = false) ∧
    (∃ ex, unwrap (makeResultErr (makeErr "failed")) none = .error ex ∧
      errMessage ex = "failed") := by
  refine ⟨fun h => ?_, fun h => ?_, ⟨fun he => ?_, fun h => ?_⟩, ?_⟩
  · simp [unwrap, h]
  · simp [unwrap, h]
  · obtain ⟨e, he⟩ := he
    cases hk : r.isOk
    · rfl
    · simp [unwrap, hk] at he
  · exact ⟨errToException r.err (ctor.getD errorCtor), by simp [unwrap, h]⟩
  · exact ⟨newError errorCtor "failed" (makeCause (makeErr "failed")), rfl, rfl⟩

theorem unwrap_spec_witness :
    ((makeResultOk (JSValue.str "v")).isOk = true ∧
      unwrap (makeResultOk (JSValue.str "v")) none = .ok (.str "v")) ∧
    ((makeResultErr (makeErr "failed")).isOk = false ∧
      unwrap (makeResultErr (makeErr "failed")) none =
        .error (errToException (makeErr "failed") ((none : Option ErrConstructor).getD errorCtor))) :=
  ⟨⟨rfl, (unwrap_spec (makeResultOk (.str "v")) none).1 rfl⟩,
   ⟨rfl, (unwrap_spec (makeResultErr (makeErr "failed")) none).2.1 rfl⟩⟩

/-- Identity branch of `errToException`. -/
theorem errToException_of_instanceOf {e : JSValue} {K : ErrConstructor}
    (h : instanceOf e K = true) : errToException e K = e := by
  simp [errToException, h]

/-- Wrapping branch of `errToException`. -/
theorem errToException_of_not_instanceOf {e : JSValue} {K : ErrConstructor}
    (h : instanceOf e K = false) :
    errToException e K = newError K (errMessage e) (makeCause e) := by
  simp [errToException, h]

/-- The message of a freshly built exception is the message it was
given. -/
theorem errMessage_newError (K : ErrConstructor) (m : String) (c : JSValue) :
    errMessage (newError K m c) = m := rfl

/-- Cause inspection recovers the value stored by `makeCause` in a
fresh exception. -/
theorem causeError_newError (K : ErrConstructor) (m : String) (v : JSValue) :
    causeError (newError K m (makeCause v)) = v := rfl

/-- Cause inspection recovers the value stored by `makeCause` in a
fresh `Err` object. -/
theorem causeError_makeErr (m : String) (v : JSValue) :
    causeError (makeErr m (makeCause v)) = v := rfl

/-- Plain objects are never `instanceof` anything. -/
theorem instanceOf_obj (fields : List (String × JSValue))
    (K : ErrConstructor) : instanceOf (.obj fields) K = false := rfl

/-- In particular the plain objects built by `makeErr` are never
`instanceof` anything. -/
theorem instanceOf_makeErr (m : String) (c : JSValue) (K : ErrConstructor) :
    instanceOf (makeErr m c) K = false := rfl

/-- C5: for every `Err` value `e` and constructor `K`,
`errToException` returns `e` itself when `e` is already an instance
of `K`, and otherwise builds a new exception of `K`'s kind with
message `e.message` and cause `{ error := e }`, from which `e` is
recoverable; and for every raised value `r`,
`errToException (exceptionToErr r) K` has the intermediate `Err`'s
message and the original `r` is recoverable from its (nested) cause. -/
theorem errToException_spec :
    (∀ (e : JSValue) (K : ErrConstructor), errShaped e = true →
      (instanceOf e K = true → errToException e K = e) ∧
      (instanceOf e K = false →
        errToException e K = newError K (errMessage e) (makeCause e) ∧
        causeError (errToException e K) = e)) ∧
    (∀ (r : JSValue) (K : ErrConstructor),
      errMessage (errToException (exceptionToErr r) K) =
        errMessage (exceptionToErr r) ∧
      (errToException (exceptionToErr r) K = r ∨
        causeError (errToException (exceptionToErr r) K) = r ∨
        causeError (causeError (errToException (exceptionToErr r) K)) = r)) := by
  constructor
  · intro e K _h
    refine ⟨fun h => errToException_of_instanceOf h, fun h => ?_⟩
    rw [errToException_of_not_instanceOf h]
    exact ⟨rfl, causeError_newError K (errMessage e) e⟩
  · intro r K
    cases hs : errShaped r
    · rw [exceptionToErr_of_not_errShaped hs,
        errToException_of_not_instanceOf (instanceOf_makeErr _ _ K)]
      exact ⟨rfl, Or.inr (Or.inr rfl)⟩
    · rw [exceptionToErr_of_errShaped hs]
      cases hik : instanceOf r K
      · rw [errToException_of_not_instanceOf hik]
        exact ⟨rfl, Or.inr (Or.inl (causeError_newError K (errMessage r) r))⟩
      · rw [errToException_of_instanceOf hik]
        exact ⟨rfl, Or.inl rfl⟩

theorem errToException_spec_witness :
    errShaped (makeErr "boom") = true ∧
    instanceOf (makeErr "boom") errorCtor = false ∧
    errToException (makeErr "boom") errorCtor =
      newError errorCtor (errMessage (makeErr "boom")) (makeCause (makeErr "boom")) ∧
    causeError (errToException (makeErr "boom") errorCtor) = makeErr "boom" :=
  ⟨rfl, rfl,
   ((errToException_spec.1 (makeErr "boom") errorCtor rfl).2 rfl).1,
   ((errToException_spec.1 (makeErr "boom") errorCtor rfl).2 rfl).2⟩

/-- Unfolding the loop of `groupResults` from an arbitrary pair of
accumulators. -/
theorem groupResults_go (rs : List JSResult) (a b : List JSValue) :
    rs.foldl
      (fun acc result =>
        if result.isOk then (acc.1 ++ [result.ok], acc.2)
        else (acc.1, acc.2 ++ [result.err]))
      (a, b) =
    (a ++ rs.filterMap (fun r => if r.isOk then some r.ok else none),
     b ++ rs.filterMap (fun r => if r.isOk then none else some r.err)) := by
  induction rs generalizing a b with
  | nil => simp
  | cons r rest ih =>
      cases h : r.isOk <;>
        simp [h, ih, List.filterMap_cons, List.append_assoc]

/-- The two groups are the order-preserving projections of the Ok and
Err payloads. -/
theorem groupResults_eq_filterMap (rs : List JSResult) :
    groupResults rs =
      (rs.filterMap (fun r => if r.isOk then some r.ok else none),
       rs.filterMap (fun r => if r.isOk then none else some r.err)) := by
  unfold groupResults
  rw [groupResults_go]
  simp

/-- The first group has one element per Ok variant. -/
theorem length_groupResults_fst (rs : List JSResult) :
    (groupResults rs).1.length = rs.countP (fun r => r.isOk) := by
  rw [groupResults_eq_filterMap]
  induction rs with
  | nil => rfl
  | cons r rest ih =>
      cases h : r.isOk <;>
        simp [List.filterMap_cons, h, List.countP_cons, ih]

/-- The second group has one element per Err variant. -/
theorem length_groupResults_snd (rs : List JSResult) :
    (groupResults rs).2.length = rs.countP (fun r => !r.isOk) := by
  rw [groupResults_eq_filterMap]
  induction rs with
  | nil => rfl
  | cons r rest ih =>
      cases h : r.isOk <;>
        simp [List.filterMap_cons, h, List.countP_cons, ih]

/-- Counting Ok variants and Err variants exhausts the input. -/
theorem countP_ok_add_countP_err (rs : List JSResult) :
    rs.countP (fun r => r.isOk) + rs.countP (fun r => !r.isOk) = rs.length := by
  induction rs with
  | nil => rfl
  | cons r rest ih =>
      cases h : r.isOk <;> simp [List.countP_cons, h] <;> omega

/-- C6: `groupResults` partitions its input into the Ok payloads and
the Err payloads, preserving relative order within each group (they
are the `filterMap` projections of the input), with `k` successes,
`N - k` failures, `k + (N - k) = N` elements in total, and the
four-element scenario from the spec. -/
theorem groupResults_spec :
    (∀ rs : List JSResult,
      groupResults rs =
        (rs.filterMap (fun r => if r.isOk then some r.ok else none),
         rs.filterMap (fun r => if r.isOk then none else some r.err)) ∧
      (groupResults rs).1.length = rs.countP (fun r => r.isOk) ∧
      (groupResults rs).2.length = rs.length - rs.countP (fun r => r.isOk) ∧
      (groupResults rs).1.length + (groupResults rs).2.length = rs.length) ∧
    (∀ e1 e2 : JSValue,
      groupResults
        [makeResultOk (.num 1), makeResultErr e1,
         makeResultOk (.num 2), makeResultErr e2] =
        ([.num 1, .num 2], [e1, e2])) := by
  constructor
  · intro rs
    have h1 := length_groupResults_fst rs
    have h2 := length_groupResults_snd rs
    have hl := countP_ok_add_countP_err rs
    exact ⟨groupResults_eq_filterMap rs, h1, by omega, by omega⟩
  · intro e1 e2
    rfl

/-- Values carrying a string `message` are objects, hence
`Something`s. -/
theorem isSomething_of_errShaped {e : JSValue} (h : errShaped e = true) :
    isSomething e = true := by
  cases e <;> simp_all [errShaped, JSValue.getField, JSValue.isJSString,
    isSomething]

/-- C9: the constructors populate exactly the payload selected by the
discriminator (`makeResultOk v` has discriminator `true`, success
payload `v`, error payload `undefined`, and dually for
`makeResultErr`), `isResultErr` is the negation of `isResultOk`, and
every `Result` produced by the library's operations satisfies the
exactly-one-payload invariant `wellFormed`. -/
theorem result_invariants :
    (∀ v : JSValue,
      isResultOk (makeResultOk v) = true ∧
      isResultErr (makeResultOk v) = false ∧
      (makeResultOk v).isOk = true ∧
      (makeResultOk v).ok = v ∧
      (makeResultOk v).err = JSValue.undefined) ∧
    (∀ e : JSValue,
      isResultOk (makeResultErr e) = false ∧
      isResultErr (makeResultErr e) = true ∧
      (makeResultErr e).isOk = false ∧
      (makeResultErr e).err = e ∧
      (makeResultErr e).ok = JSValue.undefined) ∧
    (∀ r : JSResult, isResultErr r = !isResultOk r) ∧
    (∀ v : JSValue, isSomething v = true →
      wellFormed (makeResultOk v) = true) ∧
    (∀ e : JSValue, errShaped e = true →
      wellFormed (makeResultErr e) = true) ∧
    (∀ fn : JSOutcome, outcomeSomething fn = true →
      wellFormed (wrapUnknown fn) = true) ∧
    (∀ (fn : JSOutcome) (K : ErrConstructor) (r : JSResult),
      outcomeSomething fn = true → wrapInstanceOf fn K = .ok r →
      wellFormed r = true) ∧
    (∀ (fn : JSOutcome) (oK : Option ErrConstructor) (r : JSResult),
      outcomeSomething fn = true → wrap fn oK = .ok r →
      wellFormed r = true) := by
  have hOk : ∀ v : JSValue, isSomething v = true →
      wellFormed (makeResultOk v) = true := by
    intro v h
    simp [wellFormed, makeResultOk, h, isUndefined]
  have hErrWf : ∀ e : JSValue, isSomething e = true →
      wellFormed (makeResultErr e) = true := by
    intro e h
    simp [wellFormed, makeResultErr, h, isUndefined]
  have hWU : ∀ fn : JSOutcome, outcomeSomething fn = true →
      wellFormed (wrapUnknown fn) = true := by
    intro fn h
    cases fn with
    | ret v => exact hOk v h
    | thrown e =>
        exact hErrWf _ (isSomething_of_errShaped (errShaped_exceptionToErr e))
  have hWI : ∀ (fn : JSOutcome) (K : ErrConstructor) (r : JSResult),
      outcomeSomething fn = true → wrapInstanceOf fn K = .ok r →
      wellFormed r = true := by
    intro fn K r h hr
    cases fn with
    | ret v =>
        simp only [wrapInstanceOf, Except.ok.injEq] at hr
        exact hr ▸ hOk v h
    | thrown e =>
        cases hik : instanceOf e K
        · simp [wrapInstanceOf, hik] at hr
        · simp only [wrapInstanceOf, hik, if_pos, Except.ok.injEq] at hr
          exact hr ▸ hErrWf _
            (isSomething_of_errShaped (errShaped_of_instanceOf hik))
  refine ⟨fun v => ⟨rfl, rfl, rfl, rfl, rfl⟩,
    fun e => ⟨rfl, rfl, rfl, rfl, rfl⟩,
    fun r => rfl, hOk, fun e h => hErrWf e (isSomething_of_errShaped h),
    hWU, hWI, ?_⟩
  intro fn oK r h hr
  cases oK with
  | some K => exact hWI fn K r h hr
  | none =>
      simp only [wrap, Except.ok.injEq] at hr
      exact hr ▸ hWU fn h

theorem result_invariants_witness :
    (isSomething (JSValue.str "v") = true ∧
      wellFormed (makeResultOk (JSValue.str "v")) = true) ∧
    (errShaped (makeErr "boom") = true ∧
      wellFormed (makeResultErr (makeErr "boom")) = true) ∧
    (outcomeSomething (.thrown (.num 7)) = true ∧
      wellFormed (wrapUnknown (.thrown (.num 7))) = true) :=
  ⟨⟨rfl, result_invariants.2.2.2.1 (.str "v") rfl⟩,
   ⟨rfl, result_invariants.2.2.2.2.1 (makeErr "boom") rfl⟩,
   ⟨rfl, result_invariants.2.2.2.2.2.1 (.thrown (.num 7)) rfl⟩⟩

end TinyTsResult
